import Mathlib

/-!
Verification of the pastas proof-of-concept notebooks.

Shallow embedding of the inline numerical recipes of the notebooks
`noisemodel.ipynb`, `pastas_synthetic.ipynb` and the unnamed notebook parts:
the AR(1)/ARMA(1,1) correlated-noise generators and the step-response
integration harness.  Arrays indexed by time step become functions `ℕ → ℝ`
(or lists built from them); the scipy adaptive quadrature is an opaque
parameter, since it is an external library call.
-/

namespace PastasPoC

/-- Embeds the fixed-coefficient AR(1) cell of `noisemodel.ipynb`
(`a = np.zeros_like(head[0]); for i in range(1, noise.size):
a[i] = noise[i] + a[i - 1] * alpha`).  The array is zero-initialised and the
loop starts at index 1, so index 0 keeps the value 0. -/
def nmAR (alpha : ℝ) (noise : ℕ → ℝ) : ℕ → ℝ
  | 0 => 0
  | i + 1 => noise (i + 1) + nmAR alpha noise i * alpha

/-- Embeds the correlated-noise cell of `pastas_synthetic.ipynb`
(`noise_corr[0] = noise[0]; for i in range(1, len(noise_corr)):
noise_corr[i] = np.exp(-1 / alphatrue) * noise_corr[i - 1] + noise[i]`). -/
noncomputable def noiseCorr (alphatrue : ℝ) (noise : ℕ → ℝ) : ℕ → ℝ
  | 0 => noise 0
  | i + 1 => Real.exp (-1 / alphatrue) * noiseCorr alphatrue noise i + noise (i + 1)

/-- Embeds the Δt-based AR(1) cell of `noisemodel.ipynb`
(`residuals[0] = noise[0]; for i in range(1, len(ho)):
residuals[i] = np.exp(-delt[i - 1] / alpha) * residuals[i - 1] + noise[i]`).
`delt i` stands for the Python `delt[i]`, the elapsed time between
observation `i` and observation `i + 1`. -/
noncomputable def residualsAR (alpha : ℝ) (delt : ℕ → ℝ) (noise : ℕ → ℝ) : ℕ → ℝ
  | 0 => noise 0
  | i + 1 => Real.exp (-delt i / alpha) * residualsAR alpha delt noise i + noise (i + 1)

/-- Embeds the ARMA(1,1) cell of the unnamed notebook part
(`a = np.zeros_like(head[0]); for i in range(1, noise.size):
a[i] = noise[i] + noise[i - 1] * beta + a[i - 1] * alpha`).  As in the
fixed-coefficient AR(1) cell, index 0 keeps the initial value 0. -/
def nmARMA (alpha beta : ℝ) (noise : ℕ → ℝ) : ℕ → ℝ
  | 0 => 0
  | i + 1 => noise (i + 1) + noise i * beta + nmARMA alpha beta noise i * alpha

/-- Modelled from the spec: the AR(1) recursion exactly as the specification
words it — "r[0] = noise[0]; r[i] = noise[i] + α · r[i-1] for i ≥ 1" — used
only to compare the notebooks' code against the specified recursion. -/
def specAR1 (alpha : ℝ) (noise : ℕ → ℝ) : ℕ → ℝ
  | 0 => noise 0
  | i + 1 => noise (i + 1) + alpha * specAR1 alpha noise i

/-- The fixed-coefficient AR(1) cell applied to a whole base-noise list:
one output entry per input entry, as the numpy array `a` of the cell. -/
def nmARList (alpha : ℝ) (noise : List ℝ) : List ℝ :=
  (List.range noise.length).map (nmAR alpha fun i => noise.getD i 0)

/-- The `pastas_synthetic` correlated-noise cell applied to a whole
base-noise list. -/
noncomputable def noiseCorrList (alphatrue : ℝ) (noise : List ℝ) : List ℝ :=
  (List.range noise.length).map (noiseCorr alphatrue fun i => noise.getD i 0)

/-- The Δt-based AR(1) cell applied to a whole base-noise list
(`residuals = np.zeros_like(noise)` gives one entry per noise sample). -/
noncomputable def residualsList (alpha : ℝ) (delt : ℕ → ℝ) (noise : List ℝ) : List ℝ :=
  (List.range noise.length).map (residualsAR alpha delt fun i => noise.getD i 0)

/-- The ARMA(1,1) cell applied to a whole base-noise list. -/
def nmARMAList (alpha beta : ℝ) (noise : List ℝ) : List ℝ :=
  (List.range noise.length).map (nmARMA alpha beta fun i => noise.getD i 0)

/-- A concrete base-noise sequence with first element 1 and all later
elements 0, used to exhibit the behaviour of the generators at index 0. -/
def exNoise : ℕ → ℝ := fun i => if i = 0 then 1 else 0

/-! Response Integrator.

Every step-response check cell of `noisemodel.ipynb` (Gamma, Exponential,
Hantush, Polder, FourParam, DoubleExponential, Kraijenhoff) has the shape

  `t = np.arange(0, tmax); stepnum = np.zeros(len(t));`
  `for i in range(1, len(t)): stepnum[i] = quad(family.impulse, 0, t[i], args=(p))[0]`

`m` below is `len(t)`, the number of integer sample times in `[0, tmax)`.
The scipy adaptive quadrature and the family's impulse response are external
library code; the value `quad(impulse, 0, t[i], args=(p))[0]` is taken as an
opaque function `q : ℕ → ℝ` of the upper integration bound `t[i] = i`. -/

/-- The numerical step-response array `stepnum`: zero-initialised, with the
quadrature value `q i` written at every index `i ≥ 1` by the loop. -/
def stepnumGrid (q : ℕ → ℝ) (m : ℕ) : List ℝ :=
  (List.range m).map fun i => if i = 0 then (0 : ℝ) else q i

/-- Modelled from the spec: the analytic step-response sequence `step`
returned by the external `family.step(p)`.  Its sample alignment is fixed by
the comparison cell `plt.plot(t[1:], step)` of `noisemodel.ipynb`: `step` is
the analytic step response `F` sampled at the times `t[1:]`, one entry per
integer time in `[1, tmax)`. -/
def analyticGrid (F : ℕ → ℝ) (m : ℕ) : List ℝ :=
  ((List.range m).drop 1).map F

/-- Embeds the FourParam cell of `noisemodel.ipynb`: the array `stepnum` is
built exactly as in the other cells and then rescaled element-wise by
`stepnum = stepnum / quad(fourparam.impulse, 0, np.inf, args=p)[0]`.
`qinf` stands for that full-domain integral. -/
noncomputable def stepnumFourParam (q : ℕ → ℝ) (qinf : ℝ) (m : ℕ) : List ℝ :=
  (stepnumGrid q m).map fun x => x / qinf

end PastasPoC

namespace PastasPoC

/-! Claims. -/

/-- C1 (counterexample).  The claim states that the AR(1) generator with
regular time steps returns `r[0] = noise[0]`.  The fixed-coefficient AR(1)
cell of `noisemodel.ipynb` refutes this at base noise `exNoise` (whose first
element is 1) with `alpha = 1/2`: its first output is 0, not 1. -/
theorem nmAR_first_element_ne_noise :
    nmAR (1 / 2) exNoise 0 = 0 ∧ exNoise 0 = 1 ∧ nmAR (1 / 2) exNoise 0 ≠ exNoise 0 := by
  refine ⟨rfl, by norm_num [exNoise], ?_⟩
  simp only [nmAR, exNoise, if_pos rfl]
  norm_num

/-- C1 (amended).  For every base noise and every parameter, both
regular-step AR(1) cells satisfy the recursion `r[i] = noise[i] + c · r[i-1]`
for `i ≥ 1` — with `c = alpha` in the `noisemodel.ipynb` cell and
`c = exp(-1/alphatrue)` in the `pastas_synthetic.ipynb` cell — but only the
`pastas_synthetic` cell seeds `r[0] = noise[0]`; the `noisemodel` cell's
first output is 0 regardless of the base noise. -/
theorem ar1_recursion_and_seeds (alpha : ℝ) (noise : ℕ → ℝ) (i : ℕ) :
    nmAR alpha noise 0 = 0 ∧
    nmAR alpha noise (i + 1) = noise (i + 1) + alpha * nmAR alpha noise i ∧
    noiseCorr alpha noise 0 = noise 0 ∧
    noiseCorr alpha noise (i + 1)
      = noise (i + 1) + Real.exp (-1 / alpha) * noiseCorr alpha noise i := by
  refine ⟨rfl, ?_, rfl, ?_⟩
  · simp only [nmAR]; ring
  · simp only [noiseCorr]; ring

/-- C3.  With all time-step sizes equal to 1, the Δt-based AR(1)
recursion of `noisemodel.ipynb` produces, element for element and including
the first element, exactly the fixed-coefficient recursion with coefficient
`exp(-1/alpha)` (the `pastas_synthetic.ipynb` correlated-noise cell). -/
theorem residualsAR_unit_steps_eq_noiseCorr (alpha : ℝ) (noise : ℕ → ℝ) (i : ℕ) :
    residualsAR alpha (fun _ => 1) noise i = noiseCorr alpha noise i := by
  induction i with
  | zero => rfl
  | succ k ih => simp only [residualsAR, noiseCorr, ih]

/-- C4 (counterexample).  The claim states that the ARMA(1,1) cell with
`beta = 0` coincides, including the first element, with the AR(1) recursion
"as specified" (`r[0] = noise[0]`).  At base noise `exNoise` and
`alpha = 1/2` the ARMA cell's first output is 0 while the specified
recursion's first output is `noise[0] = 1`. -/
theorem nmARMA_beta_zero_ne_specAR1 :
    nmARMA (1 / 2) 0 exNoise 0 = 0 ∧ specAR1 (1 / 2) exNoise 0 = 1 ∧
    nmARMA (1 / 2) 0 exNoise 0 ≠ specAR1 (1 / 2) exNoise 0 := by
  refine ⟨rfl, by norm_num [specAR1, exNoise], ?_⟩
  simp only [nmARMA, specAR1, exNoise, if_pos rfl]
  norm_num

/-- C4 (amended).  The ARMA(1,1) cell with `beta = 0` produces output
identical, element for element and including the first element, to the
fixed-coefficient AR(1) cell of `noisemodel.ipynb` — both seed their first
output as 0, not as `noise[0]`. -/
theorem nmARMA_beta_zero_eq_nmAR (alpha : ℝ) (noise : ℕ → ℝ) (i : ℕ) :
    nmARMA alpha 0 noise i = nmAR alpha noise i := by
  induction i with
  | zero => rfl
  | succ k ih => simp only [nmARMA, nmAR, ih]; ring

/-- C5 (counterexample).  The claim states that with `alpha = 0` the
fixed-coefficient AR(1) cell returns the base noise unchanged, including at
index 0.  At base noise `exNoise` the first output is 0 while
`noise[0] = 1`. -/
theorem nmAR_alpha_zero_ne_noise_at_zero :
    nmAR 0 exNoise 0 = 0 ∧ exNoise 0 = 1 ∧ nmAR 0 exNoise 0 ≠ exNoise 0 := by
  refine ⟨rfl, by norm_num [exNoise], ?_⟩
  simp only [nmAR, exNoise, if_pos rfl]
  norm_num

/-- C5 (amended).  With `alpha = 0` the fixed-coefficient AR(1) cell
returns the base noise unchanged at every index `i ≥ 1`; its first output is
0 regardless of the base noise. -/
theorem nmAR_alpha_zero (noise : ℕ → ℝ) (i : ℕ) :
    nmAR 0 noise 0 = 0 ∧ nmAR 0 noise (i + 1) = noise (i + 1) := by
  refine ⟨rfl, ?_⟩
  simp [nmAR]

/-- C6 (counterexample).  The claim states that for base noise
`[1, 0, 0, 0]` and `α = 0.5` the AR(1) regular-step recursion returns
`[1, 0.5, 0.25, 0.125]`.  The fixed-coefficient AR(1) cell of
`noisemodel.ipynb` run with `alpha = 0.5` on that input returns
`[0, 0, 0, 0]` instead, because it seeds its first output as 0. -/
theorem nmARList_concrete_ne_claimed :
    nmARList (1 / 2) [1, 0, 0, 0] = ([0, 0, 0, 0] : List ℝ) ∧
    nmARList (1 / 2) [1, 0, 0, 0] ≠ ([1, 1 / 2, 1 / 4, 1 / 8] : List ℝ) := by
  have h : nmARList (1 / 2) [1, 0, 0, 0] = ([0, 0, 0, 0] : List ℝ) := by
    norm_num [nmARList, nmAR, List.range_succ]
  refine ⟨h, ?_⟩
  rw [h]
  intro heq
  have := List.head_eq_of_cons_eq heq
  norm_num at this

/-- C6 (amended).  On base noise `[1, 0, 0, 0]`: the `noisemodel.ipynb`
fixed-coefficient cell with `alpha = 0.5` returns `[0, 0, 0, 0]` (it seeds
the first element as 0), while the `pastas_synthetic.ipynb` cell returns
exactly `[1, 0.5, 0.25, 0.125]` when its per-step multiplier
`exp(-1/alphatrue)` equals `0.5`, i.e. for `alphatrue = 1 / ln 2`. -/
theorem ar1_concrete_scenario :
    nmARList (1 / 2) [1, 0, 0, 0] = ([0, 0, 0, 0] : List ℝ) ∧
    noiseCorrList (1 / Real.log 2) [1, 0, 0, 0]
      = ([1, 1 / 2, 1 / 4, 1 / 8] : List ℝ) := by
  have hc : Real.exp (-Real.log 2) = 1 / 2 := by
    rw [Real.exp_neg, Real.exp_log (by norm_num : (0 : ℝ) < 2)]
    norm_num
  constructor
  · norm_num [nmARList, nmAR, List.range_succ]
  · norm_num [noiseCorrList, noiseCorr, List.range_succ, hc]

/-- C8 (counterexample).  The claim states that the analytic and the
numerical step-response sequences have equal domain and equal length.  With
`len(t) = 3` the numerical array `stepnum` has 3 entries (times 0, 1, 2)
while the analytic sequence plotted against `t[1:]` has only 2 (times 1, 2). -/
theorem stepnum_analytic_length_mismatch :
    (stepnumGrid (fun _ => 1) 3).length = 3 ∧
    (analyticGrid (fun _ => 1) 3).length = 2 ∧
    (stepnumGrid (fun _ => 1) 3).length ≠ (analyticGrid (fun _ => 1) 3).length := by
  refine ⟨by simp [stepnumGrid], by simp [analyticGrid], ?_⟩
  simp [stepnumGrid, analyticGrid]

/-- C8 (amended).  For each integer time `t` with `1 ≤ t < t_max` the
integrator stores the quadrature value over `[0, t]` at index `t`; the
numerical sequence is defined at the integer times `[0, t_max)` (length
`len(t)`), while the analytic sequence is sampled at the times `[1, t_max)`
(length `len(t) - 1`): both are defined at the shared times `t[1:]`, and the
numerical sequence carries one extra, zero-initialised entry at `t = 0`. -/
theorem stepnum_grid_characterization (q F : ℕ → ℝ) (m : ℕ) :
    (stepnumGrid q m).length = m ∧
    (analyticGrid F m).length = m - 1 ∧
    stepnumGrid q (m + 1) = 0 :: ((List.range (m + 1)).drop 1).map q ∧
    analyticGrid F (m + 1) = ((List.range (m + 1)).drop 1).map F := by
  refine ⟨by simp [stepnumGrid], by simp [analyticGrid], ?_, rfl⟩
  simp [stepnumGrid, List.range_succ_eq_map, List.map_map, Function.comp_def]

/-- C9.  The Δt-based AR(1) cell and the ARMA(1,1) cell each return one
output value per input timestep: the output array is `np.zeros_like` of the
base noise and the loop only fills entries in place, so the output length
equals the base-noise length for every parameter choice.  The embedded
generators are total functions, matching the absence of exceptions on
well-formed numeric input. -/
theorem noise_generators_one_value_per_timestep (alpha beta : ℝ)
    (delt : ℕ → ℝ) (noise : List ℝ) :
    (residualsList alpha delt noise).length = noise.length ∧
    (nmARMAList alpha beta noise).length = noise.length := by
  constructor <;> simp [residualsList, nmARMAList]

/-- C10.  For every quadrature oracle and every nonempty time grid, the
numerical step-response array has value exactly 0 at index 0: it is
zero-initialised and the quadrature loop starts at index 1, so the `t = 0`
entry is never overwritten. -/
theorem stepnum_zero_at_time_zero (q : ℕ → ℝ) (m : ℕ) :
    (stepnumGrid q (m + 1)).head? = some 0 := by
  simp [stepnumGrid, List.range_succ_eq_map]

end PastasPoC
